import Mathlib

/-!
Verification of the Forks & Fortunes restaurant discovery and quality engine.

The definitions below are a shallow embedding of `restaurant_quality.py`
(and the paginated search loop shared with `restaurant_analyzer.py`).
Python floats are embedded as exact rationals where only field arithmetic
occurs (the quality scorer, metrics), and as real numbers where
trigonometry occurs (the haversine distance and the grid sweep).
-/

namespace ForksFortunes

/-- One restaurant record, mirroring the `RestaurantQuality` dataclass.
Optional fields are `Option`; coordinates are rationals (they are only
stored and compared, never fed to trigonometry in the scoring pipeline). -/
structure RestaurantQuality where
  place_id : String
  name : String
  lat : ℚ
  lng : ℚ
  rating : Option ℚ
  price_level : Option ℤ
  user_ratings_total : Option ℤ
  types : List String
  vicinity : String
  quality_score : Option ℚ
deriving DecidableEq, Repr

/-- Round-half-to-even on rationals, the rounding mode of Python `round`. -/
def roundHalfEven (x : ℚ) : ℤ :=
  let f := Int.floor x
  let frac := x - (f : ℚ)
  if frac < 1/2 then f
  else if 1/2 < frac then f + 1
  else if f % 2 = 0 then f else f + 1

/-- `round(x, 2)` from Python, on exact rationals. -/
def round2 (x : ℚ) : ℚ := (roundHalfEven (x * 100) : ℚ) / 100

/-- The price-level branch of `_calculate_quality_score`:
`*= 1.05` for price level 2 or 3, `*= 1.02` for price level 4,
unchanged otherwise (including an absent price level). -/
def price_adjust (price_level : Option ℤ) (score : ℚ) : ℚ :=
  match price_level with
  | some pl =>
    if pl = 2 ∨ pl = 3 then score * (21/20)
    else if pl = 4 then score * (51/50)
    else score
  | none => score

/-- `_calculate_quality_score`.  Note the review-count branch guards with
Python truthiness (`if restaurant.user_ratings_total:`), so both `None`
and `0` skip the credibility multiplier. -/
def calculate_quality_score (r : RestaurantQuality) : Option ℚ :=
  match r.rating with
  | none => none
  | some rating =>
    let score := rating
    let score :=
      match r.user_ratings_total with
      | some urt =>
        if urt ≠ 0 then score * (7/10 + 3/10 * min ((urt : ℚ) / 100) 1) else score
      | none => score
    some (round2 (price_adjust r.price_level score))

/-- One raw place record from an API response page (the fields the parser
reads, each optional exactly when the parser supplies a default). -/
structure PlaceRecord where
  place_id : Option String
  name : Option String
  lat : ℚ
  lng : ℚ
  rating : Option ℚ
  price_level : Option ℤ
  user_ratings_total : Option ℤ
  types : Option (List String)
  vicinity : Option String
deriving DecidableEq, Repr

/-- Building the `RestaurantQuality` record from a place dict, with the
defaults used by `_parse_restaurants_from_response` (score not yet set). -/
def parse_place (p : PlaceRecord) : RestaurantQuality :=
  { place_id := p.place_id.getD ""
    name := p.name.getD "Unnamed"
    lat := p.lat
    lng := p.lng
    rating := p.rating
    price_level := p.price_level
    user_ratings_total := p.user_ratings_total
    types := p.types.getD []
    vicinity := p.vicinity.getD ""
    quality_score := none }

/-- Attaching the quality score computed from the freshly parsed record. -/
def with_score (r : RestaurantQuality) : RestaurantQuality :=
  { r with quality_score := calculate_quality_score r }

/-- One API response page: status string, result records, optional
next-page token. -/
structure ApiResponse where
  status : String
  results : List PlaceRecord
  next_page_token : Option String
deriving DecidableEq, Repr

/-- `_parse_restaurants_from_response`: every record in `results` is
parsed and scored; the response status is not consulted here. -/
def parse_restaurants_from_response (resp : ApiResponse) : List RestaurantQuality :=
  resp.results.map (fun p => with_score (parse_place p))

/-- The deduplication pass of `analyze_city_restaurant_quality`
(`df.drop_duplicates(subset='place_id')`): walk the rows, keep a row iff
its `place_id` has not been seen yet. -/
def dedup_go (seen : List String) : List RestaurantQuality → List RestaurantQuality
  | [] => []
  | r :: rs =>
    if r.place_id ∈ seen then dedup_go seen rs
    else r :: dedup_go (r.place_id :: seen) rs

/-- `drop_duplicates(subset='place_id')` with the default `keep='first'`. -/
def dedup_by_place_id (l : List RestaurantQuality) : List RestaurantQuality :=
  dedup_go [] l

/-- First-occurrence filter: keep the head, drop every later record with
the same `place_id`, recurse.  This is the claim-shaped description of
first-seen-wins deduplication, proved equal to `dedup_by_place_id`. -/
def keep_first_by_id : List RestaurantQuality → List RestaurantQuality
  | [] => []
  | r :: rs =>
    r :: keep_first_by_id (rs.filter (fun y => !(y.place_id == r.place_id)))
termination_by l => l.length
decreasing_by
  simp only [List.length_cons]
  exact Nat.lt_succ_of_le (List.length_filter_le _ _)

/-- Collecting all parsed-and-scored entities across responses, in order
(`all_restaurants.extend(restaurants)` over the sweep). -/
def collect_scored : List ApiResponse → List RestaurantQuality
  | [] => []
  | resp :: rest => parse_restaurants_from_response resp ++ collect_scored rest

/-- Collecting the raw (unscored) parses across responses. -/
def collect_raw : List ApiResponse → List RestaurantQuality
  | [] => []
  | resp :: rest => resp.results.map parse_place ++ collect_raw rest

/-- The implemented pipeline of `analyze_city_restaurant_quality`: each
entity is scored at parse time, then the accumulated rows are
deduplicated by `place_id`. -/
def analyze_pipeline (responses : List ApiResponse) : List RestaurantQuality :=
  dedup_by_place_id (collect_scored responses)

/-- Modelled from the spec: the `DiscoveryEngine` order of operations —
`Deduplicator.merge` over the raw entities first, then
`QualityScorer.score` each survivor. -/
def spec_pipeline (responses : List ApiResponse) : List RestaurantQuality :=
  (dedup_by_place_id (collect_raw responses)).map with_score

/-- The metrics dictionary returned by `calculate_city_quality_metrics`. -/
structure CityQualityMetrics where
  total_restaurants : ℕ
  avg_rating : Option ℚ
  avg_quality_score : Option ℚ
  high_rated_count : ℕ
  low_rated_count : ℕ
  expensive_count : ℕ
  budget_count : ℕ
  well_reviewed_count : ℕ
  quality_categories : List (String × ℕ)
deriving DecidableEq, Repr

/-- Mean of a rational list, `none` on the empty list (pandas `.mean()`
over the non-null values of a column, `NaN` mapped to `none`). -/
def meanQ (l : List ℚ) : Option ℚ :=
  if l.isEmpty then none else some (l.sum / (l.length : ℚ))

/-- Rating of a rated row (rows fed to this always carry a rating). -/
def the_rating (r : RestaurantQuality) : Option ℚ := r.rating

/-- `calculate_city_quality_metrics`: the empty-input guard returns the
all-zero dictionary with `None` averages and an empty category mapping;
otherwise counts and means are taken as in the source, with comparisons
against a missing value being false (pandas `NaN` semantics). -/
def calculate_city_quality_metrics (df : List RestaurantQuality) : CityQualityMetrics :=
  if df.isEmpty then
    { total_restaurants := 0
      avg_rating := none
      avg_quality_score := none
      high_rated_count := 0
      low_rated_count := 0
      expensive_count := 0
      budget_count := 0
      well_reviewed_count := 0
      quality_categories := [] }
  else
    let rated := df.filter (fun r => !(r.rating == none))
    let ratedWith (p : ℚ → Bool) : ℕ :=
      (rated.filter (fun r => match r.rating with | some x => p x | none => false)).length
    { total_restaurants := df.length
      avg_rating := if rated.isEmpty then none else meanQ (rated.filterMap the_rating)
      avg_quality_score :=
        if rated.isEmpty then none else meanQ (rated.filterMap (fun r => r.quality_score))
      high_rated_count := ratedWith (fun x => 4 ≤ x)
      low_rated_count := ratedWith (fun x => x < 3)
      expensive_count :=
        (df.filter (fun r => r.price_level == some 3 || r.price_level == some 4)).length
      budget_count :=
        (df.filter (fun r => r.price_level == some 1 || r.price_level == some 2)).length
      well_reviewed_count :=
        (df.filter (fun r => match r.user_ratings_total with
          | some n => 50 ≤ n | none => false)).length
      quality_categories :=
        if rated.isEmpty then [] else
          [("Excellent (4.5+)", ratedWith (fun x => 9/2 ≤ x)),
           ("Very Good (4.0-4.4)", ratedWith (fun x => 4 ≤ x ∧ x < 9/2)),
           ("Good (3.5-3.9)", ratedWith (fun x => 7/2 ≤ x ∧ x < 4)),
           ("Average (3.0-3.4)", ratedWith (fun x => 3 ≤ x ∧ x < 7/2)),
           ("Below Average (<3.0)", ratedWith (fun x => x < 3))] }

/-- One `requests.get(...).json()` outcome: `none` models a raised
`requests.RequestException`, `some resp` a decoded response body. -/
def FetchFun : Type := ℕ → Option ApiResponse

/-- The pagination loop of `get_restaurants_with_quality`, with
`fuel = max_pages - page_count` (the loop runs while a next-page token is
present and `page_count < max_pages`).  Returns the entities gathered by
the remaining iterations together with the number of page requests
issued by them (a request that raises still counts as issued). -/
def search_loop (fetch : FetchFun) :
    ℕ → Option String → ℕ → List RestaurantQuality × ℕ
  | 0, _, _ => ([], 0)
  | _ + 1, none, _ => ([], 0)
  | fuel + 1, some _, idx =>
    match fetch idx with
    | none => ([], 1)
    | some resp =>
      let rest := search_loop fetch fuel resp.next_page_token (idx + 1)
      (parse_restaurants_from_response resp ++ rest.1, rest.2 + 1)

/-- `get_restaurants_with_quality` for a single sample point, with the
HTTP transport injected as `fetch` (the `i`-th request made returns
`fetch i`).  Returns the collected entities and the total number of page
requests issued.  A total function: no exception ever escapes. -/
def get_restaurants_with_quality (fetch : FetchFun) (max_pages : ℕ) :
    List RestaurantQuality × ℕ :=
  match fetch 0 with
  | none => ([], 1)
  | some r0 =>
    if r0.status ≠ "OK" then ([], 1)
    else
      let rest := search_loop fetch (max_pages - 1) r0.next_page_token 1
      (parse_restaurants_from_response r0 ++ rest.1, rest.2 + 1)

/-! ## Concrete fixtures used by the scenario claims -/

/-- Entity with a rating, a present-but-zero review count, no price level. -/
def eZero : RestaurantQuality :=
  { place_id := "z", name := "Zero Reviews", lat := 0, lng := 0, rating := some 5,
    price_level := none, user_ratings_total := some 0, types := [], vicinity := "",
    quality_score := none }

/-- `rating=4.8, review_count=500, price_level=3` from the scoring scenario. -/
def eHigh : RestaurantQuality :=
  { place_id := "h", name := "Excellent Restaurant", lat := 0, lng := 0,
    rating := some (24/5), price_level := some 3, user_ratings_total := some 500,
    types := [], vicinity := "", quality_score := none }

/-- `rating=4.7, review_count=15, price_level=2` from the scoring scenario. -/
def eNew : RestaurantQuality :=
  { place_id := "n", name := "New Good Place", lat := 0, lng := 0,
    rating := some (47/10), price_level := some 2, user_ratings_total := some 15,
    types := [], vicinity := "", quality_score := none }

/-- First record with an empty `place_id`. -/
def eDupA : RestaurantQuality :=
  { place_id := "", name := "A", lat := 1, lng := 2, rating := none,
    price_level := none, user_ratings_total := none, types := [], vicinity := "",
    quality_score := none }

/-- Second, different record with an empty `place_id`. -/
def eDupB : RestaurantQuality :=
  { place_id := "", name := "B", lat := 3, lng := 4, rating := none,
    price_level := none, user_ratings_total := none, types := [], vicinity := "",
    quality_score := none }

/-- A place returned on the first page of the failing-pagination scenario. -/
def p9a : PlaceRecord :=
  { place_id := some "a", name := some "First", lat := 0, lng := 0, rating := none,
    price_level := none, user_ratings_total := none, types := none, vicinity := none }

/-- A place returned on the non-OK second page of the same scenario. -/
def p9b : PlaceRecord :=
  { place_id := some "b", name := some "Second", lat := 0, lng := 0, rating := none,
    price_level := none, user_ratings_total := none, types := none, vicinity := none }

/-- First page: `OK`, one result, a next-page token. -/
def resp9a : ApiResponse :=
  { status := "OK", results := [p9a], next_page_token := some "tok" }

/-- Second page: quota exceeded, yet carrying a result and no token. -/
def resp9b : ApiResponse :=
  { status := "OVER_QUERY_LIMIT", results := [p9b], next_page_token := none }

/-- Transport giving the two pages above, then failing. -/
def fetch9 : FetchFun :=
  fun i => if i = 0 then some resp9a else if i = 1 then some resp9b else none

/-! ## Geospatial part: haversine distance and the grid sweep -/

open Real

/-- `math.radians`. -/
noncomputable def rad (d : ℝ) : ℝ := d * (Real.pi / 180)

/-- `math.atan2 y x` (real-number case analysis; the engine only ever
reaches the `0 < x` branch). -/
noncomputable def atan2 (y x : ℝ) : ℝ :=
  if 0 < x then Real.arctan (y / x)
  else if x < 0 then
    (if 0 ≤ y then Real.arctan (y / x) + Real.pi else Real.arctan (y / x) - Real.pi)
  else (if 0 < y then Real.pi / 2 else if y < 0 then -(Real.pi / 2) else 0)

/-- The intermediate `a` of `_haversine_distance_km`:
`sin²(Δφ/2) + cos φ₁ · cos φ₂ · sin²(Δλ/2)`. -/
noncomputable def havA (lat1 lng1 lat2 lng2 : ℝ) : ℝ :=
  Real.sin (rad (lat2 - lat1) / 2) ^ 2 +
    Real.cos (rad lat1) * Real.cos (rad lat2) * Real.sin (rad (lng2 - lng1) / 2) ^ 2

/-- `_haversine_distance_km`: `R * 2 * atan2(√a, √(1-a))` with `R = 6371`. -/
noncomputable def haversine_distance_km (lat1 lng1 lat2 lng2 : ℝ) : ℝ :=
  6371 * (2 * atan2 (Real.sqrt (havA lat1 lng1 lat2 lng2))
    (Real.sqrt (1 - havA lat1 lng1 lat2 lng2)))

/-- Python `int()`: truncation toward zero. -/
noncomputable def intTrunc (x : ℝ) : ℤ := if 0 ≤ x then ⌊x⌋ else ⌈x⌉

/-- Python `range(a, b + 1)` over integers, as a list. -/
def intRange (a b : ℤ) : List ℤ :=
  (List.range (b + 1 - a).toNat).map (fun n : ℕ => a + (n : ℤ))

/-- The grid sweep of `analyze_city_restaurant_quality`: with
`delta_deg = step_km / 111` and `steps = int(radius_km / step_km)`,
iterate `dx` (outer) and `dy` (inner) over `range(-steps, steps + 1)`,
form the sample point `(lat_c + dy * delta_deg, lng_c + dx * delta_deg)`,
and keep it iff its haversine distance from the center is at most
`radius_km`.  The returned list is exactly the sequence of sample points
queried, in loop order. -/
noncomputable def grid_sweep_points (lat_c lng_c radius_km step_km : ℝ) : List (ℝ × ℝ) :=
  (intRange (-(intTrunc (radius_km / step_km))) (intTrunc (radius_km / step_km))).flatMap
    fun dx =>
      (intRange (-(intTrunc (radius_km / step_km))) (intTrunc (radius_km / step_km))).flatMap
        fun dy =>
          if haversine_distance_km lat_c lng_c (lat_c + (dy : ℝ) * (step_km / 111))
              (lng_c + (dx : ℝ) * (step_km / 111)) ≤ radius_km then
            [(lat_c + (dy : ℝ) * (step_km / 111), lng_c + (dx : ℝ) * (step_km / 111))]
          else []

lemma mem_intRange {a b k : ℤ} : k ∈ intRange a b ↔ a ≤ k ∧ k ≤ b := by
  simp only [intRange, List.mem_map, List.mem_range]
  constructor
  · rintro ⟨i, hi, rfl⟩
    omega
  · rintro ⟨h1, h2⟩
    exact ⟨(k - a).toNat, by omega, by omega⟩

lemma mem_ite_singleton {c : Prop} [Decidable c] {p q : ℝ × ℝ} :
    p ∈ (if c then [q] else ([] : List (ℝ × ℝ))) ↔ c ∧ p = q := by
  split_ifs with h <;> simp [h]

lemma mem_grid_sweep_points {lat_c lng_c r s : ℝ} {p : ℝ × ℝ} :
    p ∈ grid_sweep_points lat_c lng_c r s ↔
      ∃ dx dy : ℤ, -(intTrunc (r / s)) ≤ dx ∧ dx ≤ intTrunc (r / s) ∧
        -(intTrunc (r / s)) ≤ dy ∧ dy ≤ intTrunc (r / s) ∧
        p = (lat_c + (dy : ℝ) * (s / 111), lng_c + (dx : ℝ) * (s / 111)) ∧
        haversine_distance_km lat_c lng_c (lat_c + (dy : ℝ) * (s / 111))
          (lng_c + (dx : ℝ) * (s / 111)) ≤ r := by
  simp only [grid_sweep_points, List.mem_flatMap, mem_intRange, mem_ite_singleton]
  constructor
  · rintro ⟨dx, ⟨h1, h2⟩, dy, ⟨h3, h4⟩, hc, rfl⟩
    exact ⟨dx, dy, h1, h2, h3, h4, rfl, hc⟩
  · rintro ⟨dx, dy, h1, h2, h3, h4, rfl, hc⟩
    exact ⟨dx, ⟨h1, h2⟩, dy, ⟨h3, h4⟩, hc, rfl⟩

lemma havA_self (lat lng : ℝ) : havA lat lng lat lng = 0 := by
  simp [havA, rad]

lemma haversine_self (lat lng : ℝ) : haversine_distance_km lat lng lat lng = 0 := by
  rw [haversine_distance_km, havA_self]
  norm_num [atan2, Real.arctan_zero]

lemma atan2_sqrt_eq_arcsin {a : ℝ} (h0 : 0 ≤ a) (h1 : a < 1) :
    atan2 (Real.sqrt a) (Real.sqrt (1 - a)) = Real.arcsin (Real.sqrt a) := by
  have hx : 0 < Real.sqrt (1 - a) := Real.sqrt_pos.2 (by linarith)
  rw [atan2, if_pos hx]
  have hsa : Real.sqrt a < 1 := by
    have := Real.sqrt_lt_sqrt h0 h1
    simpa using this
  have hmem : Real.sqrt a ∈ Set.Ioo (-1 : ℝ) 1 :=
    ⟨lt_of_lt_of_le (by norm_num) (Real.sqrt_nonneg a), hsa⟩
  rw [Real.arcsin_eq_arctan hmem, Real.sq_sqrt h0]

lemma dist_eq_arcsin {lat1 lng1 lat2 lng2 : ℝ}
    (h0 : 0 ≤ havA lat1 lng1 lat2 lng2) (h1 : havA lat1 lng1 lat2 lng2 < 1) :
    haversine_distance_km lat1 lng1 lat2 lng2 =
      12742 * Real.arcsin (Real.sqrt (havA lat1 lng1 lat2 lng2)) := by
  rw [haversine_distance_km, atan2_sqrt_eq_arcsin h0 h1]; ring

lemma dist_le_of_le {lat1 lng1 lat2 lng2 r : ℝ}
    (h0 : 0 ≤ havA lat1 lng1 lat2 lng2) (h1 : havA lat1 lng1 lat2 lng2 < 1)
    (ht0 : 0 ≤ r / 12742) (ht2 : r / 12742 ≤ π / 2)
    (hle : havA lat1 lng1 lat2 lng2 ≤ Real.sin (r / 12742) ^ 2) :
    haversine_distance_km lat1 lng1 lat2 lng2 ≤ r := by
  rw [dist_eq_arcsin h0 h1]
  have hs : 0 ≤ Real.sin (r / 12742) :=
    Real.sin_nonneg_of_nonneg_of_le_pi ht0 (le_trans ht2 (by linarith [Real.pi_pos]))
  have hsq : Real.sqrt (havA lat1 lng1 lat2 lng2) ≤ Real.sin (r / 12742) := by
    calc Real.sqrt (havA lat1 lng1 lat2 lng2)
        ≤ Real.sqrt (Real.sin (r / 12742) ^ 2) := Real.sqrt_le_sqrt hle
      _ = Real.sin (r / 12742) := by rw [Real.sqrt_sq hs]
  have harc : Real.arcsin (Real.sqrt (havA lat1 lng1 lat2 lng2)) ≤ r / 12742 := by
    calc Real.arcsin (Real.sqrt (havA lat1 lng1 lat2 lng2))
        ≤ Real.arcsin (Real.sin (r / 12742)) := Real.monotone_arcsin hsq
      _ = r / 12742 := Real.arcsin_sin (by linarith [Real.pi_pos]) ht2
  linarith

lemma dist_gt_of_gt {lat1 lng1 lat2 lng2 r : ℝ}
    (h0 : 0 ≤ havA lat1 lng1 lat2 lng2) (h1 : havA lat1 lng1 lat2 lng2 < 1)
    (ht0 : 0 ≤ r / 12742) (ht2 : r / 12742 ≤ π / 2)
    (hgt : Real.sin (r / 12742) ^ 2 < havA lat1 lng1 lat2 lng2) :
    r < haversine_distance_km lat1 lng1 lat2 lng2 := by
  rw [dist_eq_arcsin h0 h1]
  have hs : 0 ≤ Real.sin (r / 12742) :=
    Real.sin_nonneg_of_nonneg_of_le_pi ht0 (le_trans ht2 (by linarith [Real.pi_pos]))
  have hsq : Real.sin (r / 12742) < Real.sqrt (havA lat1 lng1 lat2 lng2) := by
    calc Real.sin (r / 12742) = Real.sqrt (Real.sin (r / 12742) ^ 2) :=
          (Real.sqrt_sq hs).symm
      _ < Real.sqrt (havA lat1 lng1 lat2 lng2) := Real.sqrt_lt_sqrt (sq_nonneg _) hgt
  have harc : r / 12742 < Real.arcsin (Real.sqrt (havA lat1 lng1 lat2 lng2)) := by
    have hmono := Real.strictMonoOn_arcsin
      (Set.mem_Icc.2 ⟨by linarith [Real.neg_one_le_sin (r / 12742)], by
        linarith [Real.sin_le_one (r / 12742)]⟩)
      (Set.mem_Icc.2 ⟨by linarith [Real.sqrt_nonneg (havA lat1 lng1 lat2 lng2)], by
        have := Real.sqrt_lt_sqrt h0 h1; simpa using this.le⟩) hsq
    calc r / 12742 = Real.arcsin (Real.sin (r / 12742)) :=
          (Real.arcsin_sin (by linarith [Real.pi_pos]) ht2).symm
      _ < _ := hmono
  linarith

/-! ### Numeric bounds.  `3 / 12742` is the arc (in radians) subtended by
3 km on the 6371-km sphere; `π / 13320` is half the angle of a
`3/111`-degree step; `π / 39960` is half the angle of a `1/111`-degree
step. -/

lemma sin_t_lower : (3:ℝ)/12742 - (3/12742)^3/4 < Real.sin (3/12742) :=
  Real.sin_gt_sub_cube (by norm_num) (by norm_num)

lemma sin_t_upper : Real.sin ((3:ℝ)/12742) < 3/12742 := Real.sin_lt (by norm_num)

lemma sin_t_pos : 0 < Real.sin ((3:ℝ)/12742) :=
  Real.sin_pos_of_pos_of_lt_pi (by norm_num) (by nlinarith [Real.pi_gt_three])

lemma t_le_half_pi : (3:ℝ)/12742 ≤ π/2 := by nlinarith [Real.pi_gt_three]

lemma sin_t_lt_sin_T : Real.sin ((3:ℝ)/12742) < Real.sin (π/13320) := by
  have hpi := Real.pi_gt_d6
  have hpi2 := Real.pi_lt_d6
  have h1 : (3:ℝ)/12742 < π/13320 := by nlinarith
  exact Real.strictMonoOn_sin
    (Set.mem_Icc.2 ⟨by nlinarith [Real.pi_pos], by nlinarith [Real.pi_pos]⟩)
    (Set.mem_Icc.2 ⟨by nlinarith [Real.pi_pos], by nlinarith [Real.pi_pos]⟩) h1

lemma sin_T_pos : 0 < Real.sin (π/13320) := lt_trans sin_t_pos sin_t_lt_sin_T

lemma sin_T_upper : Real.sin (π/13320) < π/13320 := Real.sin_lt (by positivity)

lemma sin_u_nonneg : 0 ≤ Real.sin (π/39960) := by
  have hpi := Real.pi_gt_d6
  exact le_of_lt (Real.sin_pos_of_pos_of_lt_pi (by positivity) (by nlinarith))

lemma sin_u_lt_sin_t : Real.sin (π/39960) < Real.sin ((3:ℝ)/12742) := by
  have hpi := Real.pi_gt_d6
  have hpi2 := Real.pi_lt_d6
  have h1 : Real.sin (π/39960) < π/39960 := Real.sin_lt (by positivity)
  have h2 := sin_t_lower
  nlinarith

lemma cos_palo_alto_le : Real.cos (37.4419 * (π / 180)) ≤ 4/5 := by
  have hpi := Real.pi_gt_d6
  have hpi2 := Real.pi_lt_d6
  set y := 37.4419 * (π / 180) / 2 with hy
  have hy1 : (0.3267 : ℝ) ≤ y := by rw [hy]; nlinarith
  have hy2 : y ≤ (0.32675 : ℝ) := by rw [hy]; nlinarith
  have hsin : y - y^3/4 < Real.sin y := Real.sin_gt_sub_cube (by linarith) (by linarith)
  have hy3 : y^3 ≤ (0.32675:ℝ)^3 := pow_le_pow_left₀ (by linarith) hy2 3
  have hsin2 : (0.3179 : ℝ) ≤ Real.sin y := by nlinarith
  have hcos : Real.cos (2 * y) = 1 - 2 * Real.sin y ^ 2 := by
    have h1 := Real.cos_two_mul y
    have h2 := Real.sin_sq_add_cos_sq y
    nlinarith
  have h2y : 2 * y = 37.4419 * (π / 180) := by rw [hy]; ring
  rw [← h2y, hcos]
  nlinarith

lemma cos_nonneg_near (x : ℝ) (h1 : 37 ≤ x) (h2 : x ≤ 38) :
    0 ≤ Real.cos (x * (π / 180)) := by
  have hpi := Real.pi_pos
  refine le_of_lt (Real.cos_pos_of_mem_Ioo ⟨?_, ?_⟩)
  · nlinarith
  · nlinarith

lemma cos_palo_alto_nonneg : 0 ≤ Real.cos (37.4419 * (π / 180)) :=
  cos_nonneg_near 37.4419 (by norm_num) (by norm_num)

/-! ### The haversine intermediate `a` at the concrete grid points. -/

lemma havA_north1 :
    havA 37.4419 (-122.1430) (37.4419 + ((1:ℤ):ℝ) * (1/111)) (-122.1430 + ((0:ℤ):ℝ) * (1/111)) =
      Real.sin (π/39960) ^ 2 := by
  simp only [havA, rad]; push_cast; norm_num; ring_nf

lemma havA_south1 :
    havA 37.4419 (-122.1430) (37.4419 + ((-1:ℤ):ℝ) * (1/111)) (-122.1430 + ((0:ℤ):ℝ) * (1/111)) =
      Real.sin (π/39960) ^ 2 := by
  simp only [havA, rad]; push_cast; norm_num; ring_nf
  rw [show (π * (-1/39960) : ℝ) = -(π * (1/39960)) from by ring, Real.sin_neg]
  ring

lemma havA_east1 :
    havA 37.4419 (-122.1430) (37.4419 + ((0:ℤ):ℝ) * (1/111)) (-122.1430 + ((1:ℤ):ℝ) * (1/111)) =
      Real.cos (37.4419 * (π/180)) ^ 2 * Real.sin (π/39960) ^ 2 := by
  simp only [havA, rad]; push_cast; norm_num; ring_nf

lemma havA_west1 :
    havA 37.4419 (-122.1430) (37.4419 + ((0:ℤ):ℝ) * (1/111)) (-122.1430 + ((-1:ℤ):ℝ) * (1/111)) =
      Real.cos (37.4419 * (π/180)) ^ 2 * Real.sin (π/39960) ^ 2 := by
  simp only [havA, rad]; push_cast; norm_num; ring_nf
  rw [show (π * (-1/39960) : ℝ) = -(π * (1/39960)) from by ring, Real.sin_neg]
  ring

lemma havA_diag33 :
    havA 37.4419 (-122.1430) (37.4419 + ((3:ℤ):ℝ) * (1/111)) (-122.1430 + ((3:ℤ):ℝ) * (1/111)) =
      Real.sin (π/13320) ^ 2 +
        Real.cos (37.4419 * (π/180)) * Real.cos ((37.4419 + 3/111) * (π/180)) *
          Real.sin (π/13320) ^ 2 := by
  simp only [havA, rad]; push_cast; norm_num; ring_nf

/-! ### Inequality packages comparing each `a` value against
`sin²(3/12742)`, the threshold for a 3-km radius. -/

lemma bounds_u : 0 ≤ Real.sin (π/39960) ^ 2 ∧ Real.sin (π/39960) ^ 2 < 1 ∧
    Real.sin (π/39960) ^ 2 ≤ Real.sin ((3:ℝ)/12742) ^ 2 := by
  have h1 := sin_u_lt_sin_t
  have h2 := sin_u_nonneg
  have h3 := sin_t_pos
  refine ⟨sq_nonneg _, ?_, ?_⟩
  · have hu : Real.sin (π/39960) < π/39960 := Real.sin_lt (by positivity)
    have hpi := Real.pi_lt_d6
    nlinarith
  · nlinarith

lemma bounds_cu : 0 ≤ Real.cos (37.4419 * (π/180)) ^ 2 * Real.sin (π/39960) ^ 2 ∧
    Real.cos (37.4419 * (π/180)) ^ 2 * Real.sin (π/39960) ^ 2 < 1 ∧
    Real.cos (37.4419 * (π/180)) ^ 2 * Real.sin (π/39960) ^ 2 ≤
      Real.sin ((3:ℝ)/12742) ^ 2 := by
  obtain ⟨h0, h1, hle⟩ := bounds_u
  have hc : Real.cos (37.4419 * (π/180)) ^ 2 ≤ 1 := Real.cos_sq_le_one _
  have hc0 : 0 ≤ Real.cos (37.4419 * (π/180)) ^ 2 := sq_nonneg _
  refine ⟨mul_nonneg hc0 h0, ?_, ?_⟩ <;> nlinarith

lemma bounds_T : 0 ≤ Real.sin (π/13320) ^ 2 ∧ Real.sin (π/13320) ^ 2 < 1 ∧
    Real.sin ((3:ℝ)/12742) ^ 2 < Real.sin (π/13320) ^ 2 := by
  have h1 := sin_t_lt_sin_T
  have h2 := sin_t_pos
  have h3 := sin_T_upper
  have hpi := Real.pi_lt_d6
  refine ⟨sq_nonneg _, ?_, ?_⟩ <;> nlinarith [sin_T_pos]

lemma bounds_cT : 0 ≤ Real.cos (37.4419 * (π/180)) ^ 2 * Real.sin (π/13320) ^ 2 ∧
    Real.cos (37.4419 * (π/180)) ^ 2 * Real.sin (π/13320) ^ 2 < 1 ∧
    Real.cos (37.4419 * (π/180)) ^ 2 * Real.sin (π/13320) ^ 2 ≤
      Real.sin ((3:ℝ)/12742) ^ 2 := by
  have hc := cos_palo_alto_le
  have hc0 := cos_palo_alto_nonneg
  have hT := sin_T_upper
  have hT0 := sin_T_pos
  have hpi := Real.pi_lt_d6
  have ht : (0.00023544 : ℝ) ≤ Real.sin ((3:ℝ)/12742) := by nlinarith [sin_t_lower]
  have h1 : Real.cos (37.4419 * (π/180)) ^ 2 ≤ (4/5) ^ 2 := by nlinarith
  have h2 : Real.sin (π/13320) ^ 2 ≤ (3.141593/13320) ^ 2 := by nlinarith
  refine ⟨mul_nonneg (sq_nonneg _) (sq_nonneg _), ?_, ?_⟩
  · nlinarith [Real.cos_sq_le_one (37.4419 * (π/180)), sq_nonneg (Real.sin (π/13320))]
  · nlinarith [sq_nonneg (Real.cos (37.4419 * (π/180))), sq_nonneg (Real.sin (π/13320)),
      sin_t_pos]

lemma diag_package {c c' : ℝ} (hc : 0 ≤ c) (hc' : 0 ≤ c') (hc1 : c ≤ 1) (hc1' : c' ≤ 1) :
    0 ≤ Real.sin (π/13320) ^ 2 + c * c' * Real.sin (π/13320) ^ 2 ∧
    Real.sin (π/13320) ^ 2 + c * c' * Real.sin (π/13320) ^ 2 < 1 ∧
    Real.sin ((3:ℝ)/12742) ^ 2 <
      Real.sin (π/13320) ^ 2 + c * c' * Real.sin (π/13320) ^ 2 := by
  obtain ⟨h0, h1, hgt⟩ := bounds_T
  have hcc : c * c' ≤ 1 := mul_le_one₀ hc1 hc' hc1'
  have hcc0 : 0 ≤ c * c' := mul_nonneg hc hc'
  have hT := sin_T_upper
  have hT0 := sin_T_pos
  have hpi := Real.pi_lt_d6
  refine ⟨by nlinarith, by nlinarith, by nlinarith⟩

/-! ### Distance verdicts at the concrete sample points. -/

lemma t3_nonneg : (0:ℝ) ≤ 3/12742 := by norm_num

lemma dist1_north : haversine_distance_km 37.4419 (-122.1430)
    (37.4419 + ((1:ℤ):ℝ) * (1/111)) (-122.1430 + ((0:ℤ):ℝ) * (1/111)) ≤ 3 := by
  refine dist_le_of_le ?_ ?_ t3_nonneg t_le_half_pi ?_
  · rw [havA_north1]; exact bounds_u.1
  · rw [havA_north1]; exact bounds_u.2.1
  · rw [havA_north1]; exact bounds_u.2.2

lemma dist1_south : haversine_distance_km 37.4419 (-122.1430)
    (37.4419 + ((-1:ℤ):ℝ) * (1/111)) (-122.1430 + ((0:ℤ):ℝ) * (1/111)) ≤ 3 := by
  refine dist_le_of_le ?_ ?_ t3_nonneg t_le_half_pi ?_
  · rw [havA_south1]; exact bounds_u.1
  · rw [havA_south1]; exact bounds_u.2.1
  · rw [havA_south1]; exact bounds_u.2.2

lemma dist1_east : haversine_distance_km 37.4419 (-122.1430)
    (37.4419 + ((0:ℤ):ℝ) * (1/111)) (-122.1430 + ((1:ℤ):ℝ) * (1/111)) ≤ 3 := by
  refine dist_le_of_le ?_ ?_ t3_nonneg t_le_half_pi ?_
  · rw [havA_east1]; exact bounds_cu.1
  · rw [havA_east1]; exact bounds_cu.2.1
  · rw [havA_east1]; exact bounds_cu.2.2

lemma dist1_west : haversine_distance_km 37.4419 (-122.1430)
    (37.4419 + ((0:ℤ):ℝ) * (1/111)) (-122.1430 + ((-1:ℤ):ℝ) * (1/111)) ≤ 3 := by
  refine dist_le_of_le ?_ ?_ t3_nonneg t_le_half_pi ?_
  · rw [havA_west1]; exact bounds_cu.1
  · rw [havA_west1]; exact bounds_cu.2.1
  · rw [havA_west1]; exact bounds_cu.2.2

lemma dist1_diag33 : ¬ haversine_distance_km 37.4419 (-122.1430)
    (37.4419 + ((3:ℤ):ℝ) * (1/111)) (-122.1430 + ((3:ℤ):ℝ) * (1/111)) ≤ 3 := by
  rw [not_le]
  have hpkg := diag_package cos_palo_alto_nonneg
    (cos_nonneg_near (37.4419 + 3/111) (by norm_num) (by norm_num))
    (Real.cos_le_one _) (Real.cos_le_one _)
  refine dist_gt_of_gt ?_ ?_ t3_nonneg t_le_half_pi ?_
  · rw [havA_diag33]; exact hpkg.1
  · rw [havA_diag33]; exact hpkg.2.1
  · rw [havA_diag33]; exact hpkg.2.2

/-! ### The nine candidate points of the `step_km = radius_km = 3` grid. -/

lemma havA_north3 :
    havA 37.4419 (-122.1430) (37.4419 + ((1:ℤ):ℝ) * (3/111)) (-122.1430 + ((0:ℤ):ℝ) * (3/111)) =
      Real.sin (π/13320) ^ 2 := by
  simp only [havA, rad]; push_cast; norm_num; ring_nf

lemma havA_south3 :
    havA 37.4419 (-122.1430) (37.4419 + ((-1:ℤ):ℝ) * (3/111)) (-122.1430 + ((0:ℤ):ℝ) * (3/111)) =
      Real.sin (π/13320) ^ 2 := by
  simp only [havA, rad]; push_cast; norm_num; ring_nf
  rw [show (π * (-1/13320) : ℝ) = -(π * (1/13320)) from by ring, Real.sin_neg]
  ring

lemma havA_east3 :
    havA 37.4419 (-122.1430) (37.4419 + ((0:ℤ):ℝ) * (3/111)) (-122.1430 + ((1:ℤ):ℝ) * (3/111)) =
      Real.cos (37.4419 * (π/180)) ^ 2 * Real.sin (π/13320) ^ 2 := by
  simp only [havA, rad]; push_cast; norm_num; ring_nf

lemma havA_west3 :
    havA 37.4419 (-122.1430) (37.4419 + ((0:ℤ):ℝ) * (3/111)) (-122.1430 + ((-1:ℤ):ℝ) * (3/111)) =
      Real.cos (37.4419 * (π/180)) ^ 2 * Real.sin (π/13320) ^ 2 := by
  simp only [havA, rad]; push_cast; norm_num; ring_nf
  rw [show (π * (-1/13320) : ℝ) = -(π * (1/13320)) from by ring, Real.sin_neg]
  ring

lemma havA_ne3 :
    havA 37.4419 (-122.1430) (37.4419 + ((1:ℤ):ℝ) * (3/111)) (-122.1430 + ((1:ℤ):ℝ) * (3/111)) =
      Real.sin (π/13320) ^ 2 +
        Real.cos (37.4419 * (π/180)) * Real.cos ((37.4419 + 3/111) * (π/180)) *
          Real.sin (π/13320) ^ 2 := by
  simp only [havA, rad]; push_cast; norm_num; ring_nf

lemma havA_nw3 :
    havA 37.4419 (-122.1430) (37.4419 + ((1:ℤ):ℝ) * (3/111)) (-122.1430 + ((-1:ℤ):ℝ) * (3/111)) =
      Real.sin (π/13320) ^ 2 +
        Real.cos (37.4419 * (π/180)) * Real.cos ((37.4419 + 3/111) * (π/180)) *
          Real.sin (π/13320) ^ 2 := by
  simp only [havA, rad]; push_cast; norm_num; ring_nf
  rw [show (π * (-1/13320) : ℝ) = -(π * (1/13320)) from by ring, Real.sin_neg]
  ring_nf

lemma havA_se3 :
    havA 37.4419 (-122.1430) (37.4419 + ((-1:ℤ):ℝ) * (3/111)) (-122.1430 + ((1:ℤ):ℝ) * (3/111)) =
      Real.sin (π/13320) ^ 2 +
        Real.cos (37.4419 * (π/180)) * Real.cos ((37.4419 - 3/111) * (π/180)) *
          Real.sin (π/13320) ^ 2 := by
  simp only [havA, rad]; push_cast; norm_num; ring_nf
  rw [show (π * (-1/13320) : ℝ) = -(π * (1/13320)) from by ring, Real.sin_neg]
  ring_nf

lemma havA_sw3 :
    havA 37.4419 (-122.1430) (37.4419 + ((-1:ℤ):ℝ) * (3/111)) (-122.1430 + ((-1:ℤ):ℝ) * (3/111)) =
      Real.sin (π/13320) ^ 2 +
        Real.cos (37.4419 * (π/180)) * Real.cos ((37.4419 - 3/111) * (π/180)) *
          Real.sin (π/13320) ^ 2 := by
  simp only [havA, rad]; push_cast; norm_num; ring_nf
  rw [show (π * (-1/13320) : ℝ) = -(π * (1/13320)) from by ring, Real.sin_neg]
  ring_nf

lemma dist3_center : haversine_distance_km 37.4419 (-122.1430)
    (37.4419 + ((0:ℤ):ℝ) * (3/111)) (-122.1430 + ((0:ℤ):ℝ) * (3/111)) ≤ 3 := by
  norm_num
  rw [haversine_self]
  norm_num

lemma dist3_north : ¬ haversine_distance_km 37.4419 (-122.1430)
    (37.4419 + ((1:ℤ):ℝ) * (3/111)) (-122.1430 + ((0:ℤ):ℝ) * (3/111)) ≤ 3 := by
  rw [not_le]
  refine dist_gt_of_gt ?_ ?_ t3_nonneg t_le_half_pi ?_
  · rw [havA_north3]; exact bounds_T.1
  · rw [havA_north3]; exact bounds_T.2.1
  · rw [havA_north3]; exact bounds_T.2.2

lemma dist3_south : ¬ haversine_distance_km 37.4419 (-122.1430)
    (37.4419 + ((-1:ℤ):ℝ) * (3/111)) (-122.1430 + ((0:ℤ):ℝ) * (3/111)) ≤ 3 := by
  rw [not_le]
  refine dist_gt_of_gt ?_ ?_ t3_nonneg t_le_half_pi ?_
  · rw [havA_south3]; exact bounds_T.1
  · rw [havA_south3]; exact bounds_T.2.1
  · rw [havA_south3]; exact bounds_T.2.2

lemma dist3_east : haversine_distance_km 37.4419 (-122.1430)
    (37.4419 + ((0:ℤ):ℝ) * (3/111)) (-122.1430 + ((1:ℤ):ℝ) * (3/111)) ≤ 3 := by
  refine dist_le_of_le ?_ ?_ t3_nonneg t_le_half_pi ?_
  · rw [havA_east3]; exact bounds_cT.1
  · rw [havA_east3]; exact bounds_cT.2.1
  · rw [havA_east3]; exact bounds_cT.2.2

lemma dist3_west : haversine_distance_km 37.4419 (-122.1430)
    (37.4419 + ((0:ℤ):ℝ) * (3/111)) (-122.1430 + ((-1:ℤ):ℝ) * (3/111)) ≤ 3 := by
  refine dist_le_of_le ?_ ?_ t3_nonneg t_le_half_pi ?_
  · rw [havA_west3]; exact bounds_cT.1
  · rw [havA_west3]; exact bounds_cT.2.1
  · rw [havA_west3]; exact bounds_cT.2.2

lemma cos_north3_nonneg : 0 ≤ Real.cos ((37.4419 + 3/111) * (π/180)) :=
  cos_nonneg_near (37.4419 + 3/111) (by norm_num) (by norm_num)

lemma cos_south3_nonneg : 0 ≤ Real.cos ((37.4419 - 3/111) * (π/180)) :=
  cos_nonneg_near (37.4419 - 3/111) (by norm_num) (by norm_num)

lemma dist3_ne : ¬ haversine_distance_km 37.4419 (-122.1430)
    (37.4419 + ((1:ℤ):ℝ) * (3/111)) (-122.1430 + ((1:ℤ):ℝ) * (3/111)) ≤ 3 := by
  rw [not_le]
  have hpkg := diag_package cos_palo_alto_nonneg cos_north3_nonneg
    (Real.cos_le_one _) (Real.cos_le_one _)
  refine dist_gt_of_gt ?_ ?_ t3_nonneg t_le_half_pi ?_
  · rw [havA_ne3]; exact hpkg.1
  · rw [havA_ne3]; exact hpkg.2.1
  · rw [havA_ne3]; exact hpkg.2.2

lemma dist3_nw : ¬ haversine_distance_km 37.4419 (-122.1430)
    (37.4419 + ((1:ℤ):ℝ) * (3/111)) (-122.1430 + ((-1:ℤ):ℝ) * (3/111)) ≤ 3 := by
  rw [not_le]
  have hpkg := diag_package cos_palo_alto_nonneg cos_north3_nonneg
    (Real.cos_le_one _) (Real.cos_le_one _)
  refine dist_gt_of_gt ?_ ?_ t3_nonneg t_le_half_pi ?_
  · rw [havA_nw3]; exact hpkg.1
  · rw [havA_nw3]; exact hpkg.2.1
  · rw [havA_nw3]; exact hpkg.2.2

lemma dist3_se : ¬ haversine_distance_km 37.4419 (-122.1430)
    (37.4419 + ((-1:ℤ):ℝ) * (3/111)) (-122.1430 + ((1:ℤ):ℝ) * (3/111)) ≤ 3 := by
  rw [not_le]
  have hpkg := diag_package cos_palo_alto_nonneg cos_south3_nonneg
    (Real.cos_le_one _) (Real.cos_le_one _)
  refine dist_gt_of_gt ?_ ?_ t3_nonneg t_le_half_pi ?_
  · rw [havA_se3]; exact hpkg.1
  · rw [havA_se3]; exact hpkg.2.1
  · rw [havA_se3]; exact hpkg.2.2

lemma dist3_sw : ¬ haversine_distance_km 37.4419 (-122.1430)
    (37.4419 + ((-1:ℤ):ℝ) * (3/111)) (-122.1430 + ((-1:ℤ):ℝ) * (3/111)) ≤ 3 := by
  rw [not_le]
  have hpkg := diag_package cos_palo_alto_nonneg cos_south3_nonneg
    (Real.cos_le_one _) (Real.cos_le_one _)
  refine dist_gt_of_gt ?_ ?_ t3_nonneg t_le_half_pi ?_
  · rw [havA_sw3]; exact hpkg.1
  · rw [havA_sw3]; exact hpkg.2.1
  · rw [havA_sw3]; exact hpkg.2.2

lemma intRange_neg_one_one : intRange (-1) 1 = [-1, 0, 1] := by decide

lemma grid3_eval : grid_sweep_points 37.4419 (-122.1430) 3 3 =
    [(37.4419, -122.1430 - 3/111), (37.4419, -122.1430),
      (37.4419, -122.1430 + 3/111)] := by
  rw [grid_sweep_points]
  rw [show intTrunc ((3:ℝ)/3) = 1 from by norm_num [intTrunc]]
  rw [intRange_neg_one_one]
  simp only [List.flatMap_cons, List.flatMap_nil, List.append_nil]
  rw [if_neg dist3_sw, if_pos dist3_west, if_neg dist3_nw, if_neg dist3_south,
    if_pos dist3_center, if_neg dist3_north, if_neg dist3_se, if_pos dist3_east,
    if_neg dist3_ne]
  norm_num

lemma dist1_center : haversine_distance_km 37.4419 (-122.1430)
    (37.4419 + ((0:ℤ):ℝ) * (1/111)) (-122.1430 + ((0:ℤ):ℝ) * (1/111)) ≤ 3 := by
  norm_num
  rw [haversine_self]
  norm_num

/-! ## Supporting lemmas for the deduplication and pipeline claims -/

lemma dedup_go_eq (n : ℕ) : ∀ (seen : List String) (l : List RestaurantQuality),
    l.length ≤ n →
    dedup_go seen l =
      keep_first_by_id (l.filter (fun r => decide (r.place_id ∉ seen))) := by
  induction n with
  | zero =>
    intro seen l hl
    match l with
    | [] => simp [dedup_go, keep_first_by_id]
    | r :: rs => simp at hl
  | succ n ih =>
    intro seen l hl
    match l with
    | [] => simp [dedup_go, keep_first_by_id]
    | r :: rs =>
      simp only [List.length_cons, Nat.succ_le_succ_iff] at hl
      by_cases hmem : r.place_id ∈ seen
      · rw [dedup_go, if_pos hmem, List.filter_cons_of_neg (by simp [hmem])]
        exact ih seen rs hl
      · rw [dedup_go, if_neg hmem, List.filter_cons_of_pos (by simp [hmem]),
          keep_first_by_id, ih (r.place_id :: seen) rs hl, List.filter_filter]
        congr 2
        apply List.filter_congr
        intro y _
        by_cases hy : y.place_id = r.place_id <;> by_cases hy2 : y.place_id ∈ seen <;>
          simp [hy, hy2]

lemma dedup_eq_keep_first (l : List RestaurantQuality) :
    dedup_by_place_id l = keep_first_by_id l := by
  rw [dedup_by_place_id, dedup_go_eq l.length [] l le_rfl]
  congr 1
  apply List.filter_eq_self.mpr
  intro a _
  simp

lemma with_score_place_id (r : RestaurantQuality) :
    (with_score r).place_id = r.place_id := rfl

lemma dedup_go_map (seen : List String) (l : List RestaurantQuality) :
    dedup_go seen (l.map with_score) = (dedup_go seen l).map with_score := by
  induction l generalizing seen with
  | nil => rfl
  | cons r rs ih =>
    simp only [List.map_cons, dedup_go, with_score_place_id]
    by_cases hmem : r.place_id ∈ seen
    · rw [if_pos hmem, if_pos hmem, ih]
    · rw [if_neg hmem, if_neg hmem, List.map_cons, ih]

lemma collect_scored_eq_map (responses : List ApiResponse) :
    collect_scored responses = (collect_raw responses).map with_score := by
  induction responses with
  | nil => rfl
  | cons resp rest ih =>
    rw [collect_scored, collect_raw, List.map_append, ← ih,
      parse_restaurants_from_response, List.map_map]
    rfl

lemma search_loop_count_le (fetch : FetchFun) :
    ∀ (fuel : ℕ) (tok : Option String) (idx : ℕ),
      (search_loop fetch fuel tok idx).2 ≤ fuel := by
  intro fuel
  induction fuel with
  | zero => intro tok idx; rfl
  | succ n ih =>
    intro tok idx
    match tok with
    | none => exact Nat.zero_le _
    | some t =>
      rw [search_loop]
      cases h : fetch idx with
      | none => exact Nat.succ_le_succ (Nat.zero_le n)
      | some resp => exact Nat.succ_le_succ (ih resp.next_page_token (idx + 1))

/-! ## Claim theorems -/

/-- C1: for every center and positive `radius_km`, `step_km`, the grid
sweep queries exactly the points `center + (dx·δ in longitude, dy·δ in
latitude)` with `δ = step_km/111` over all integer pairs in
`[-steps, steps]²`, `steps = ⌊radius_km/step_km⌋`, kept iff the haversine
distance (Earth radius 6371 km) from the center is at most `radius_km`,
in row-major order over `(dx, dy)`; and for center `(37.4419, -122.1430)`
with `radius_km = 3`, `step_km = 1` the kept set contains the center and
the four cardinal-adjacent offsets and excludes offset `(3, 3)`. -/
theorem C1_grid_sweep :
    (∀ lat_c lng_c r s : ℝ, 0 < r → 0 < s →
      grid_sweep_points lat_c lng_c r s =
        (intRange (-(⌊r / s⌋)) ⌊r / s⌋).flatMap (fun dx =>
          (intRange (-(⌊r / s⌋)) ⌊r / s⌋).flatMap (fun dy =>
            if haversine_distance_km lat_c lng_c (lat_c + (dy : ℝ) * (s / 111))
                (lng_c + (dx : ℝ) * (s / 111)) ≤ r then
              [(lat_c + (dy : ℝ) * (s / 111), lng_c + (dx : ℝ) * (s / 111))]
            else []))) ∧
    ((37.4419, -122.1430) ∈ grid_sweep_points 37.4419 (-122.1430) 3 1) ∧
    ((37.4419 + 1/111, -122.1430) ∈ grid_sweep_points 37.4419 (-122.1430) 3 1) ∧
    ((37.4419 - 1/111, -122.1430) ∈ grid_sweep_points 37.4419 (-122.1430) 3 1) ∧
    ((37.4419, -122.1430 + 1/111) ∈ grid_sweep_points 37.4419 (-122.1430) 3 1) ∧
    ((37.4419, -122.1430 - 1/111) ∈ grid_sweep_points 37.4419 (-122.1430) 3 1) ∧
    ((37.4419 + 3/111, -122.1430 + 3/111) ∉ grid_sweep_points 37.4419 (-122.1430) 3 1) := by
  have hT : intTrunc ((3:ℝ)/1) = 3 := by norm_num [intTrunc]
  refine ⟨?_, ?_, ?_, ?_, ?_, ?_, ?_⟩
  · intro lat_c lng_c r s hr hs
    rw [grid_sweep_points,
      show intTrunc (r / s) = ⌊r / s⌋ from if_pos (div_pos hr hs).le]
  · rw [mem_grid_sweep_points, hT]
    exact ⟨0, 0, by decide, by decide, by decide, by decide,
      by push_cast; norm_num, dist1_center⟩
  · rw [mem_grid_sweep_points, hT]
    exact ⟨0, 1, by decide, by decide, by decide, by decide,
      by push_cast; norm_num, dist1_north⟩
  · rw [mem_grid_sweep_points, hT]
    exact ⟨0, -1, by decide, by decide, by decide, by decide,
      by push_cast; norm_num, dist1_south⟩
  · rw [mem_grid_sweep_points, hT]
    exact ⟨1, 0, by decide, by decide, by decide, by decide,
      by push_cast; norm_num, dist1_east⟩
  · rw [mem_grid_sweep_points, hT]
    exact ⟨-1, 0, by decide, by decide, by decide, by decide,
      by push_cast; norm_num, dist1_west⟩
  · intro hmem
    rw [mem_grid_sweep_points] at hmem
    obtain ⟨dx, dy, _, _, _, _, h5, h6⟩ := hmem
    rw [Prod.mk.injEq] at h5
    have hdy : (dy : ℝ) = 3 := by
      have := h5.1
      nlinarith
    have hdx : (dx : ℝ) = 3 := by
      have := h5.2
      nlinarith
    have hdyz : dy = 3 := by exact_mod_cast hdy
    have hdxz : dx = 3 := by exact_mod_cast hdx
    rw [hdyz, hdxz] at h6
    exact dist1_diag33 h6

/-- C1 witness: the structural description instantiated at the concrete
center `(37.4419, -122.1430)` with `radius_km = 3`, `step_km = 1`. -/
theorem C1_grid_sweep_witness :
    (0:ℝ) < 3 ∧ (0:ℝ) < 1 ∧
      grid_sweep_points 37.4419 (-122.1430) 3 1 =
        (intRange (-(⌊(3:ℝ) / 1⌋)) ⌊(3:ℝ) / 1⌋).flatMap (fun dx =>
          (intRange (-(⌊(3:ℝ) / 1⌋)) ⌊(3:ℝ) / 1⌋).flatMap (fun dy =>
            if haversine_distance_km 37.4419 (-122.1430)
                (37.4419 + (dy : ℝ) * (1 / 111)) (-122.1430 + (dx : ℝ) * (1 / 111)) ≤ 3 then
              [(37.4419 + (dy : ℝ) * (1 / 111), -122.1430 + (dx : ℝ) * (1 / 111))]
            else [])) :=
  ⟨by norm_num, by norm_num,
    C1_grid_sweep.1 37.4419 (-122.1430) 3 1 (by norm_num) (by norm_num)⟩

/-- C2 counterexample: an entity with rating 5 and a present review count
equal to 0 is scored 5 by the code, not `5 * 0.7 = 3.5` as the claim
requires (the truthiness guard skips the multiplier at 0). -/
theorem C2_counterexample :
    eZero.user_ratings_total = some 0 ∧
      calculate_quality_score eZero = some 5 ∧
      round2 ((5:ℚ) * (7/10 + 3/10 * min ((0:ℚ)/100) 1)) = 7/2 ∧
      (5:ℚ) ≠ 7/2 := by
  refine ⟨rfl, ?_, ?_, by norm_num⟩
  · norm_num [calculate_quality_score, eZero, price_adjust, round2, roundHalfEven]
  · rw [show ((5:ℚ) * (7/10 + 3/10 * min ((0:ℚ)/100) 1)) = 7/2 by norm_num]
    norm_num [round2, roundHalfEven]

/-- C2 amended: for an entity with a rating and a present review count,
the credibility multiplier `0.7 + 0.3·min(review_count/100, 1)` is
applied iff the review count is nonzero; at review count 0 the base is
left unchanged. -/
theorem C2_credibility_multiplier (r : RestaurantQuality) (rat : ℚ) (urt : ℤ)
    (h1 : r.rating = some rat) (h2 : r.user_ratings_total = some urt) :
    (urt ≠ 0 → calculate_quality_score r =
      some (round2 (price_adjust r.price_level
        (rat * (7/10 + 3/10 * min ((urt : ℚ) / 100) 1))))) ∧
    (urt = 0 → calculate_quality_score r =
      some (round2 (price_adjust r.price_level rat))) := by
  constructor <;> intro h3 <;> simp [calculate_quality_score, h1, h2, h3]

/-- C2 witness: the nonzero branch at `rating=4.7, review_count=15,
price_level=2`. -/
theorem C2_credibility_multiplier_witness :
    eNew.rating = some (47/10) ∧ eNew.user_ratings_total = some 15 ∧
      ((15:ℤ) ≠ 0) ∧
      calculate_quality_score eNew =
        some (round2 (price_adjust eNew.price_level
          ((47/10) * (7/10 + 3/10 * min (((15:ℤ) : ℚ) / 100) 1)))) :=
  ⟨rfl, rfl, by decide,
    (C2_credibility_multiplier eNew (47/10) 15 rfl rfl).1 (by decide)⟩

/-- C3 counterexample: with `step_km = radius_km = 3` at center
`(37.4419, -122.1430)`, the east neighbour is also a sample point, so the
grid does not consist of exactly the center. -/
theorem C3_counterexample :
    ((37.4419 : ℝ), (-122.1430 : ℝ) + 3/111) ∈
        grid_sweep_points 37.4419 (-122.1430) 3 3 ∧
      ((37.4419 : ℝ), (-122.1430 : ℝ) + 3/111) ≠ ((37.4419 : ℝ), (-122.1430 : ℝ)) := by
  constructor
  · rw [grid3_eval]; simp
  · intro h
    rw [Prod.mk.injEq] at h
    have := h.2
    norm_num at this

/-- C3 amended: with `step_km = radius_km = r > 0` the code computes
`steps = int(r/r) = 1` (a 3×3 candidate grid), so the sweep always
contains the center but not necessarily only the center; at center
`(37.4419, -122.1430)` with `r = 3` it yields exactly three points, the
center and its two east-west neighbours. -/
theorem C3_degenerate_grid :
    (∀ lat_c lng_c r : ℝ, 0 < r →
        (lat_c, lng_c) ∈ grid_sweep_points lat_c lng_c r r) ∧
      grid_sweep_points 37.4419 (-122.1430) 3 3 =
        [(37.4419, -122.1430 - 3/111), (37.4419, -122.1430),
          (37.4419, -122.1430 + 3/111)] := by
  refine ⟨?_, grid3_eval⟩
  intro lat_c lng_c r hr
  have h1 : intTrunc (r / r) = 1 := by
    rw [div_self hr.ne']
    norm_num [intTrunc]
  rw [mem_grid_sweep_points, h1]
  refine ⟨0, 0, by decide, by decide, by decide, by decide,
    by push_cast; norm_num, ?_⟩
  push_cast
  norm_num
  rw [haversine_self]
  exact hr.le

/-- C3 witness: the center-membership part at `(37.4419, -122.1430)`,
`r = 3`. -/
theorem C3_degenerate_grid_witness :
    (0:ℝ) < 3 ∧
      ((37.4419 : ℝ), (-122.1430 : ℝ)) ∈ grid_sweep_points 37.4419 (-122.1430) 3 3 :=
  ⟨by norm_num, C3_degenerate_grid.1 37.4419 (-122.1430) 3 (by norm_num)⟩

/-- C4 counterexample: two distinct records that both carry the empty
`place_id` are identified by the merge — only the first survives —
whereas the claim requires empty-id records never to be identified. -/
theorem C4_counterexample :
    eDupA.place_id = "" ∧ eDupB.place_id = "" ∧ eDupA ≠ eDupB ∧
      dedup_by_place_id [eDupA, eDupB] = [eDupA] := by
  refine ⟨rfl, rfl, ?_, rfl⟩
  simp [eDupA, eDupB]

/-- C4 amended: the merge keeps, for every `place_id` value — the empty
string included — exactly the first occurrence in traversal order with
all fields unchanged, discarding every later record with the same id:
it equals the first-occurrence filter. -/
theorem C4_first_seen_wins (l : List RestaurantQuality) :
    dedup_by_place_id l = keep_first_by_id l :=
  dedup_eq_keep_first l

/-- C5: the quality score is `none` iff the rating is `none`; every
rated entity gets a score and no score is fabricated from price or
review data alone. -/
theorem C5_score_none_iff_rating_none (r : RestaurantQuality) :
    calculate_quality_score r = none ↔ r.rating = none := by
  cases h : r.rating with
  | none => simp [calculate_quality_score, h]
  | some x => simp [calculate_quality_score, h]

/-- C6: the two scoring scenarios — `rating=4.8, review_count=500,
price_level=3` scores exactly 5.04, and `rating=4.7, review_count=15,
price_level=2` scores exactly 3.68. -/
theorem C6_scoring_scenarios :
    calculate_quality_score eHigh = some (126/25) ∧
      calculate_quality_score eNew = some (92/25) := by
  constructor
  · norm_num [calculate_quality_score, eHigh, price_adjust, round2, roundHalfEven]
  · norm_num [calculate_quality_score, eNew, price_adjust, round2, roundHalfEven]

/-- C7: scoring each entity at parse time and then deduplicating by
`place_id` yields the same rows as deduplicating the raw parses first
and then scoring each survivor. -/
theorem C7_score_then_dedup_eq_dedup_then_score (responses : List ApiResponse) :
    analyze_pipeline responses = spec_pipeline responses := by
  rw [analyze_pipeline, spec_pipeline, dedup_by_place_id, dedup_by_place_id,
    collect_scored_eq_map, dedup_go_map]

/-- C8: aggregating the empty entity set returns all-zero counts, `none`
averages and an all-zero rating distribution, by a total function (no
exception, no division). -/
theorem C8_empty_metrics :
    calculate_city_quality_metrics [] =
      { total_restaurants := 0, avg_rating := none, avg_quality_score := none,
        high_rated_count := 0, low_rated_count := 0, expensive_count := 0,
        budget_count := 0, well_reviewed_count := 0, quality_categories := [] } ∧
    ∀ p ∈ (calculate_city_quality_metrics []).quality_categories, p.2 = 0 := by
  constructor
  · rfl
  · intro p hp
    simp [calculate_city_quality_metrics] at hp

/-- C9 counterexample: a pagination chain whose second page carries a
non-OK status but still holds a result: the code parses that page too,
so the output is not just the entities from the pages before the
failure. -/
theorem C9_counterexample :
    fetch9 1 = some resp9b ∧ resp9b.status ≠ "OK" ∧
      (get_restaurants_with_quality fetch9 3).1 =
        [with_score (parse_place p9a), with_score (parse_place p9b)] ∧
      parse_restaurants_from_response resp9a = [with_score (parse_place p9a)] := by
  refine ⟨rfl, by decide, rfl, rfl⟩

/-- C9 amended: the search is a total function that returns `[]` when
the first request fails in transport or the first response is non-OK;
a transport failure at a later page ends pagination contributing
nothing further, each successfully fetched page appends exactly its
parsed results (its status unchecked), and a results-free page parses
to nothing — so when non-OK pages carry no results and no token, the
output is exactly the entities of the pages fetched before the failure. -/
theorem C9_partial_pagination :
    (∀ fetch : FetchFun, ∀ mp : ℕ, fetch 0 = none →
        (get_restaurants_with_quality fetch mp).1 = []) ∧
    (∀ fetch : FetchFun, ∀ mp : ℕ, ∀ r0, fetch 0 = some r0 → r0.status ≠ "OK" →
        (get_restaurants_with_quality fetch mp).1 = []) ∧
    (∀ fetch : FetchFun, ∀ fuel idx : ℕ, ∀ t : String, fetch idx = none →
        (search_loop fetch (fuel + 1) (some t) idx).1 = []) ∧
    (∀ fetch : FetchFun, ∀ fuel idx : ℕ, ∀ t : String, ∀ r, fetch idx = some r →
        (search_loop fetch (fuel + 1) (some t) idx).1 =
          parse_restaurants_from_response r ++
            (search_loop fetch fuel r.next_page_token (idx + 1)).1) ∧
    (∀ fetch : FetchFun, ∀ mp : ℕ, ∀ r0, fetch 0 = some r0 → r0.status = "OK" →
        (get_restaurants_with_quality fetch mp).1 =
          parse_restaurants_from_response r0 ++
            (search_loop fetch (mp - 1) r0.next_page_token 1).1) ∧
    (∀ r : ApiResponse, r.results = [] → parse_restaurants_from_response r = []) := by
  refine ⟨?_, ?_, ?_, ?_, ?_, ?_⟩
  · intro fetch mp h
    simp [get_restaurants_with_quality, h]
  · intro fetch mp r0 h h2
    simp [get_restaurants_with_quality, h, h2]
  · intro fetch fuel idx t h
    simp [search_loop, h]
  · intro fetch fuel idx t r h
    simp [search_loop, h]
  · intro fetch mp r0 h h2
    simp [get_restaurants_with_quality, h, h2]
  · intro r h
    simp [parse_restaurants_from_response, h]

/-- C9 witness: a transport that always fails yields the empty result. -/
theorem C9_partial_pagination_witness :
    (fun _ : ℕ => (none : Option ApiResponse)) 0 = none ∧
      (get_restaurants_with_quality (fun _ => none) 5).1 = [] :=
  ⟨rfl, C9_partial_pagination.1 (fun _ => none) 5 rfl⟩

/-- C10: the first page request is always issued — even with
`max_pages = 0` — and at most `max 1 max_pages` page requests are issued
in total, so pagination always terminates. -/
theorem C10_page_budget (fetch : FetchFun) (max_pages : ℕ) :
    1 ≤ (get_restaurants_with_quality fetch max_pages).2 ∧
      (get_restaurants_with_quality fetch max_pages).2 ≤ max 1 max_pages := by
  cases h : fetch 0 with
  | none =>
    simp only [get_restaurants_with_quality, h]
    omega
  | some r0 =>
    by_cases h2 : r0.status ≠ "OK"
    · simp only [get_restaurants_with_quality, h, if_pos h2]
      omega
    · simp only [get_restaurants_with_quality, h, if_neg h2]
      have hle := search_loop_count_le fetch (max_pages - 1) r0.next_page_token 1
      omega

end ForksFortunes
